import Mathlib

/-!
Verification of `ensembl-utils` (Python): a shallow embedding in Lean 4 of the
modules `ensembl/utils/checksums.py`, `ensembl/utils/argparse.py`,
`ensembl/utils/database/dbconnection.py` and
`ensembl/utils/database/unittestdb.py`, together with theorems settling the
behavioural claims about them.

Modelling conventions:
- Python exceptions are modelled with `Except` / explicit outcome values; a
  `raise` that propagates out of a function corresponds to an `Except.error`.
- The state of the database server is an association list from database name
  to database content; the third-party helpers `database_exists`,
  `create_database` and `drop_database` (sqlalchemy_utils) are modelled as
  pure operations on that state.
- Calls that are pure delegation to mature third-party libraries (hashing via
  hashlib, SQL execution, schema reflection) are abstracted as function
  parameters or data already reflected into the model, exactly at the
  boundary where the Python code hands off to the library.
-/

namespace EnsemblUtils

/-! ## checksums.py

`get_file_hash(file_path, algorithm)` reads the whole file as bytes and feeds
them to `hashlib.new(algorithm)`, returning the hex digest.
`validate_file_hash(file_path, hash_value, algorithm)` recomputes the hash and
compares it with the provided value.

The filesystem is modelled as a map from path to byte content, and hashlib as
a map from algorithm name to a digest function on byte strings. -/

/-- File contents keyed by path: what `Path(file_path).open("rb").read()` returns. -/
abbrev FileSystem := String → List Nat

/-- The hashlib registry: `hashlib.new(algorithm)` followed by `update`/`hexdigest`
is a pure function from the file's bytes to a hex digest string. -/
abbrev HashRegistry := String → List Nat → String

/-- Embedding of `get_file_hash`: hash the file's byte content with the named
algorithm and return the hex digest. -/
def get_file_hash (algos : HashRegistry) (fs : FileSystem) (file_path : String)
    (algorithm : String) : String :=
  algos algorithm (fs file_path)

/-- Embedding of `validate_file_hash`: recompute the file's hash and compare it
to the provided value (`file_hash == hash_value`). -/
def validate_file_hash (algos : HashRegistry) (fs : FileSystem) (file_path : String)
    (hash_value : String) (algorithm : String) : Bool :=
  get_file_hash algos fs file_path algorithm == hash_value

/-! ## argparse.py: numeric arguments

`ArgumentParser.error(msg)` (inherited from `argparse.ArgumentParser`) prints
the message and terminates the process; it never returns to the caller. It is
modelled as `Except.error (ParserExit msg)`, a type distinct from the
recoverable `ArgumentError` exception class defined by the module. -/

/-- A process-terminating parse error produced by `ArgumentParser.error`. -/
structure ParserExit where
  message : String
deriving DecidableEq, Repr

/-- The recoverable `ArgumentError` exception raised at argument-definition time. -/
structure ArgumentError where
  message : String
deriving DecidableEq, Repr

/-- Embedding of `ArgumentParser._validate_number`. The conversion
`value_type(value)` is modelled as a partial function `String → Option Int`
(`none` models a `TypeError`/`ValueError` raise); `typeName` is
`value_type.__name__`. Out-of-range or unconvertible values terminate parsing
via `self.error`. -/
def validate_number (value_type : String → Option Int) (typeName : String)
    (value : String) (min_value max_value : Option Int) : Except ParserExit Int :=
  match value_type value with
  | none => .error ⟨"invalid " ++ typeName ++ " value: " ++ value⟩
  | some result =>
    match min_value with
    | some m =>
      if result < m then
        .error ⟨value ++ " is lower than minimum value (" ++ toString m ++ ")"⟩
      else
        match max_value with
        | some mx =>
          if result > mx then
            .error ⟨value ++ " is greater than maximum value (" ++ toString mx ++ ")"⟩
          else .ok result
        | none => .ok result
    | none =>
      match max_value with
      | some mx =>
        if result > mx then
          .error ⟨value ++ " is greater than maximum value (" ++ toString mx ++ ")"⟩
        else .ok result
      | none => .ok result

/-- One argument registered on the parser; `add_numeric_argument` stores the
validating closure via its captured bounds. -/
structure ArgSpec where
  name : String
  min_value : Option Int
  max_value : Option Int
deriving DecidableEq, Repr

/-- The parser's mutable list of registered arguments. -/
structure ParserSpec where
  arguments : List ArgSpec
deriving DecidableEq, Repr

/-- Embedding of `ArgumentParser.add_numeric_argument`: if both bounds are
given and `min_value > max_value`, raise `ArgumentError` (leaving the parser
unchanged); otherwise register the argument with the bound-checking closure.
Returns the raised exception (if any) together with the resulting parser. -/
def add_numeric_argument (p : ParserSpec) (argName : String)
    (min_value max_value : Option Int) : Option ArgumentError × ParserSpec :=
  match min_value, max_value with
  | some a, some b =>
    if a > b then
      (some ⟨"minimum value is greater than maximum value"⟩, p)
    else
      (none, { p with arguments := p.arguments ++ [⟨argName, min_value, max_value⟩] })
  | _, _ =>
    (none, { p with arguments := p.arguments ++ [⟨argName, min_value, max_value⟩] })

/-- Parsing a command-line value for an argument registered by
`add_numeric_argument` runs the stored closure
`lambda x: self._validate_number(x, type, min_value, max_value)`. -/
def parse_arg_value (value_type : String → Option Int) (typeName : String)
    (arg : ArgSpec) (value : String) : Except ParserExit Int :=
  validate_number value_type typeName value arg.min_value arg.max_value

/-! ## Database server model (sqlalchemy_utils helpers)

A server is an association list from database name (the URL's database field)
to database content. `database_exists`, `create_database` and `drop_database`
from sqlalchemy_utils are modelled as pure operations on that state. -/

/-- An opaque Python exception value. -/
abbrev Err := String

/-- The content of one database (tables and rows, opaque to the claims). -/
abbrev DBData := List String

/-- The databases living on a server, keyed by name; most recent first. -/
abbrev ServerState := List (String × DBData)

/-- Embedding of `sqlalchemy_utils.functions.database_exists`. -/
def database_exists (url_db : String) (st : ServerState) : Bool :=
  (st.lookup url_db).isSome

/-- Embedding of `sqlalchemy_utils.functions.drop_database`: the named
database is removed from the server. -/
def drop_database (url_db : String) (st : ServerState) : ServerState :=
  st.filter (fun p => !(p.1 == url_db))

/-- Embedding of `sqlalchemy_utils.functions.create_database`: a new, empty
database with the given name is added to the server. -/
def create_database (url_db : String) (st : ServerState) : ServerState :=
  (url_db, []) :: st

/-- Replaces the content of the named database (the net effect on the server of
successfully loading schema and data into it). -/
def set_database (url_db : String) (data : DBData) (st : ServerState) : ServerState :=
  st.map (fun p => if p.1 == url_db then (p.1, data) else p)

/-! ## unittestdb.py: UnitTestDB -/

/-- Embedding of `pathlib.PurePath(d).name` for POSIX-style paths: the last
nonempty component, `""` when there is none. -/
def pathlibName (d : String) : String :=
  ((d.splitOn "/").filter (fun c => !(c == ""))).getLastD ""

/-- Lines 89-90 of unittestdb.py: `if not name: name = Path(dump_dir).name if
dump_dir else "testdb"`. `none` models Python `None`; the empty string is
falsy like `None`. -/
def resolve_logical_name (dump_dir name : Option String) : String :=
  let fallback :=
    match dump_dir with
    | some d => if d == "" then "testdb" else pathlibName d
    | none => "testdb"
  match name with
  | some n => if n == "" then fallback else n
  | none => fallback

/-- Line 91 of unittestdb.py: `db_name = f"TEST_USERNAME_name"` with an
underscore between the OS username and the logical name. -/
def test_db_name (user logical : String) : String :=
  user ++ "_" ++ logical

/-- Lines 94-98 of unittestdb.py: the database field set on the URL. For the
SQLite dialect the path is placed under `tmp_path` (when that is truthy) and
given a `.db` suffix; other dialects use the database name unchanged. -/
def url_database_field (dialect : String) (db_name : String)
    (tmp_path : Option String) : String :=
  if dialect == "sqlite" then
    (match tmp_path with
     | some t => if t == "" then db_name else t ++ "/" ++ db_name
     | none => db_name) ++ ".db"
  else db_name

/-- Lines 103-106 of unittestdb.py: drop the database first when one with the
same name already exists, then create the new one. -/
def create_clean_database (url_db : String) (st : ServerState) : ServerState :=
  create_database url_db
    (if database_exists url_db st then drop_database url_db st else st)

/-- Outcomes of the three delegated steps of `UnitTestDB.__init__` after
database creation: constructing `DBConnection`, `_load_schema_and_data`
(which yields the populated content on success), and `load_metadata`. -/
structure InitOutcomes where
  connect_error : Option Err
  populate_result : Except Err DBData
  reflect_error : Option Err

/-- The constructed `UnitTestDB` object: it keeps `self.dbc` whose engine URL
names the test database; `pool_disposed` tracks `self.dbc.dispose()`. -/
structure UnitTestDBHandle where
  url_db : String
  pool_disposed : Bool
deriving DecidableEq, Repr

/-- Embedding of `UnitTestDB.__init__` (lines 80-116 of unittestdb.py):
resolve the name, drop any same-named database, create the new one, then in a
`try` block connect and load schema and data; on any exception there, drop the
just-created database and re-raise. `load_metadata` runs outside the `try`.
Returns the constructor's outcome together with the final server state. -/
def unitTestDB_init (user dialect : String) (dump_dir name tmp_path : Option String)
    (oc : InitOutcomes) (st : ServerState) :
    Except Err UnitTestDBHandle × ServerState :=
  let logical := resolve_logical_name dump_dir name
  let db_name := test_db_name user logical
  let url_db := url_database_field dialect db_name tmp_path
  let st2 := create_clean_database url_db st
  match oc.connect_error with
  | some e => (.error e, drop_database url_db st2)
  | none =>
    match oc.populate_result with
    | .error e => (.error e, drop_database url_db st2)
    | .ok data =>
      let st3 := set_database url_db data st2
      match oc.reflect_error with
      | some e => (.error e, st3)
      | none => (.ok ⟨url_db, false⟩, st3)

/-- Embedding of `UnitTestDB.drop` (lines 150-154): drop the database, then
dispose of the connection pool. -/
def UnitTestDBHandle.drop (h : UnitTestDBHandle) (st : ServerState) :
    ServerState × UnitTestDBHandle :=
  (drop_database h.url_db st, { h with pool_disposed := true })

/-- Embedding of `UnitTestDB.__enter__` (lines 175-176): returns `self`. -/
def unitTestDB_enter (h : UnitTestDBHandle) : UnitTestDBHandle :=
  h

/-- Embedding of `UnitTestDB.__exit__` (lines 178-179): calls `self.drop()`
regardless of its arguments; returning `None` lets any body exception
propagate unchanged. -/
def unitTestDB_exit (h : UnitTestDBHandle) (body_exc : Option Err)
    (st : ServerState) : ServerState × UnitTestDBHandle × Option Err :=
  let dropped := h.drop st
  (dropped.1, dropped.2, body_exc)

/-! ## unittestdb.py: schema file execution

Lines 131-134: `for query in "".join(schema.readlines()).split(";"): if
query.strip(): conn.execute(text(query))`. The file is given as the list of
lines `readlines()` returns (each keeping its terminator); joining them
restores the file content. -/

/-- The log of statements executed by the schema loop, in execution order. -/
def execute_schema_file (file_lines : List String) : List String :=
  ((String.join file_lines).splitOn ";").foldl
    (fun log query => if !(query.trim == "") then log ++ [query] else log) []

/-- The claim's description of the same: the chunks of the file content split
on the statement terminator whose stripped form is nonempty, in file order. -/
def schema_statements (content : String) : List String :=
  (content.splitOn ";").filter (fun query => !(query.trim == ""))

/-! ## dbconnection.py: schema snapshot and reflection accessors -/

/-- A reflected column; `name` is its SQL name. -/
structure ColumnMeta where
  name : String
deriving DecidableEq, Repr

/-- A reflected table: its columns in reflection order, and the subset that
forms the primary key, again in the order reflection reports. -/
structure TableMeta where
  columns : List ColumnMeta
  primary_key_columns : List ColumnMeta
deriving DecidableEq, Repr

/-- The schema snapshot held by `DBConnection._metadata`: tables keyed by name. -/
abbrev SchemaSnapshot := List (String × TableMeta)

/-- A Python `KeyError` raised by indexing `self.tables[table]`. -/
structure PyKeyError where
  key : String
deriving DecidableEq, Repr

/-- The `DBConnection` state the reflection accessors read:
`_metadata` is `None` until a reflection has run. -/
structure DBConnectionModel where
  metadata : Option SchemaSnapshot
deriving DecidableEq, Repr

/-- Embedding of the `tables` property (lines 119-123): the snapshot's table
mapping, or an empty mapping when no metadata was loaded. -/
def DBConnectionModel.tables (c : DBConnectionModel) : SchemaSnapshot :=
  c.metadata.getD []

/-- Embedding of `DBConnection.get_columns` (lines 134-141):
`[col.name for col in self.tables[table].columns]`; indexing a missing key
raises `KeyError`. -/
def DBConnectionModel.get_columns (c : DBConnectionModel) (table : String) :
    Except PyKeyError (List String) :=
  match c.tables.lookup table with
  | some t => .ok (t.columns.map ColumnMeta.name)
  | none => .error ⟨table⟩

/-- Embedding of `DBConnection.get_primary_key_columns` (lines 125-132):
`[col.name for col in self.tables[table].primary_key.columns.values()]`. -/
def DBConnectionModel.get_primary_key_columns (c : DBConnectionModel)
    (table : String) : Except PyKeyError (List String) :=
  match c.tables.lookup table with
  | some t => .ok (t.primary_key_columns.map ColumnMeta.name)
  | none => .error ⟨table⟩

/-! ## dbconnection.py: session_scope -/

/-- The state one ORM session sees: the committed database content and the
session's pending, not yet committed, changes. -/
structure SessionState (α : Type) where
  committed : List α
  pending : List α

/-- `session.commit()`: pending changes become committed. -/
def SessionState.commit {α : Type} (s : SessionState α) : SessionState α :=
  { committed := s.committed ++ s.pending, pending := [] }

/-- `session.rollback()`: pending changes are discarded. -/
def SessionState.rollback {α : Type} (s : SessionState α) : SessionState α :=
  { s with pending := [] }

/-- What a use of `session_scope` leaves behind: the outcome the caller sees,
the final session state, and whether `session.close()` ran. -/
structure ScopeResult (α : Type) where
  outcome : Except Err Unit
  final : SessionState α
  closed : Bool

/-- Embedding of `DBConnection.session_scope` (lines 171-194): yield a fresh
session to the body; on normal return of the body commit, on a raise roll
back and re-raise the same exception; close the session in a `finally` on
both paths. The body is arbitrary; a raise is an `Except.error` carrying the
exception and the session state at the raise point. -/
def session_scope {α : Type} (db : List α)
    (body : SessionState α → Except (Err × SessionState α) (SessionState α)) :
    ScopeResult α :=
  let s0 : SessionState α := { committed := db, pending := [] }
  match body s0 with
  | .ok s => { outcome := .ok (), final := s.commit, closed := true }
  | .error (e, s) => { outcome := .error e, final := s.rollback, closed := true }

/-! ## dbconnection.py: test_session_scope -/

/-- One operation the body performs on the session handed out by
`test_session_scope`. -/
inductive SessionOp (α : Type) where
  | write (a : α)
  | commit

/-- Connection-level state during `test_session_scope`: the durable database
content, the outer transaction begun with `connection.begin()` (never
committed), and the current savepoint the session writes into. -/
structure TestScopeState (α : Type) where
  db : List α
  outer_tx : List α
  savepoint : List α

/-- Effect of one session operation under
`join_transaction_mode="create_savepoint"`: writes land in the savepoint, and
`session.commit()` only releases the savepoint into the outer transaction,
never into the database. -/
def TestScopeState.applyOp {α : Type} (s : TestScopeState α) :
    SessionOp α → TestScopeState α
  | .write a => { s with savepoint := s.savepoint ++ [a] }
  | .commit => { s with outer_tx := s.outer_tx ++ s.savepoint, savepoint := [] }

/-- Runs the body's operations in order. -/
def TestScopeState.run {α : Type} (s : TestScopeState α)
    (ops : List (SessionOp α)) : TestScopeState α :=
  ops.foldl TestScopeState.applyOp s

/-- What a use of `test_session_scope` leaves behind. -/
structure TestScopeResult (α : Type) where
  propagated : Option Err
  db : List α
  session_closed : Bool
  connection_closed : Bool

/-- Embedding of `DBConnection.test_session_scope` (lines 196-239) on a
transactional backend: connect, begin an outer transaction, bind a session
with savepoint confinement, run the body (which performs `ops` and may then
raise `body_exc`), and in the `finally` block close the session, roll back the
outer transaction — discarding the savepoint and outer-transaction buffers —
and close the connection. A body exception propagates unchanged. -/
def test_session_scope {α : Type} (db : List α) (ops : List (SessionOp α))
    (body_exc : Option Err) : TestScopeResult α :=
  let s0 : TestScopeState α := { db := db, outer_tx := [], savepoint := [] }
  let s1 := s0.run ops
  { propagated := body_exc
    db := s1.db
    session_closed := true
    connection_closed := true }

/-! ## Helper lemmas -/

/-- Dropping a database removes every entry under its name. -/
theorem lookup_drop_database (u : String) (st : ServerState) :
    (drop_database u st).lookup u = none := by
  induction st with
  | nil => rfl
  | cons p t ih =>
    obtain ⟨k, d⟩ := p
    by_cases hp : k = u
    · simpa [drop_database, List.filter_cons, hp] using ih
    · have h1 : (k == u) = false := by simpa using hp
      have h2 : (u == k) = false := by
        have hne : ¬ u = k := fun hh => hp hh.symm
        simpa using hne
      have hstep : drop_database u ((k, d) :: t) = (k, d) :: drop_database u t := by
        simp [drop_database, List.filter_cons, h1]
      rw [hstep]
      show List.lookup u ((k, d) :: drop_database u t) = none
      simp only [List.lookup, h2]
      exact ih

/-- After a drop, the existence check reports the database absent. -/
theorem database_exists_drop (u : String) (st : ServerState) :
    database_exists u (drop_database u st) = false := by
  simp [database_exists, lookup_drop_database]

/-- Folding a keep-when-true step over a list appends exactly its filtered
elements, in order. -/
theorem foldl_keep_eq_filter {α : Type} (p : α → Bool) (l acc : List α) :
    l.foldl (fun log a => if p a then log ++ [a] else log) acc =
      acc ++ l.filter p := by
  induction l generalizing acc with
  | nil => simp
  | cons a t ih =>
    by_cases hp : p a
    · simp [hp, ih]
    · simp [hp, ih]

/-- Session operations under savepoint confinement never touch the durable
database content. -/
theorem run_preserves_db {α : Type} (ops : List (SessionOp α))
    (s : TestScopeState α) : (s.run ops).db = s.db := by
  induction ops generalizing s with
  | nil => rfl
  | cons op t ih =>
    have h1 : (s.applyOp op).db = s.db := by cases op <;> rfl
    calc (s.run (op :: t)).db = ((s.applyOp op).run t).db := rfl
    _ = (s.applyOp op).db := ih _
    _ = s.db := h1

/-! ## Claim theorems -/

/-- C1: for every UnitTestDB construction, if an exception is raised after the
database has been created — during `DBConnection` construction or during
schema loading and data import — the just-created database is dropped before
the exception propagates: the constructor re-raises the same exception and
the database is absent from the final server state. -/
theorem unitTestDB_init_no_orphan (user dialect : String)
    (dump_dir name tmp_path : Option String) (oc : InitOutcomes)
    (st : ServerState) (e : Err)
    (h : oc.connect_error = some e ∨
      (oc.connect_error = none ∧ oc.populate_result = .error e)) :
    (unitTestDB_init user dialect dump_dir name tmp_path oc st).1 = .error e ∧
    database_exists
      (url_database_field dialect
        (test_db_name user (resolve_logical_name dump_dir name)) tmp_path)
      (unitTestDB_init user dialect dump_dir name tmp_path oc st).2 = false := by
  rcases h with h | ⟨h1, h2⟩
  · simp [unitTestDB_init, h, database_exists_drop]
  · simp [unitTestDB_init, h1, h2, database_exists_drop]

/-- Witness for C1: a connection failure on a concrete server leaves no
database behind and surfaces the original exception. -/
theorem unitTestDB_init_no_orphan_witness :
    ((⟨some "boom", .ok [], none⟩ : InitOutcomes).connect_error = some "boom" ∨
      ((⟨some "boom", .ok [], none⟩ : InitOutcomes).connect_error = none ∧
        (⟨some "boom", .ok [], none⟩ : InitOutcomes).populate_result = .error "boom")) ∧
    ((unitTestDB_init "alice" "mysql" none (some "core") none
        ⟨some "boom", .ok [], none⟩ []).1 = .error "boom" ∧
      database_exists
        (url_database_field "mysql"
          (test_db_name "alice" (resolve_logical_name none (some "core"))) none)
        (unitTestDB_init "alice" "mysql" none (some "core") none
          ⟨some "boom", .ok [], none⟩ []).2 = false) :=
  ⟨Or.inl rfl,
    unitTestDB_init_no_orphan "alice" "mysql" none (some "core") none
      ⟨some "boom", .ok [], none⟩ [] "boom" (Or.inl rfl)⟩

/-- C2: session_scope commits on normal exit of the body — the pending
changes become part of the committed content, hence visible after exit —
rolls back and re-raises the very same exception when the body raises, and
closes the session on both exit paths. -/
theorem session_scope_spec {α : Type} (db : List α)
    (body : SessionState α → Except (Err × SessionState α) (SessionState α)) :
    (∀ s, body ⟨db, []⟩ = .ok s →
      session_scope db body = ⟨.ok (), ⟨s.committed ++ s.pending, []⟩, true⟩) ∧
    (∀ e s, body ⟨db, []⟩ = .error (e, s) →
      session_scope db body = ⟨.error e, ⟨s.committed, []⟩, true⟩) ∧
    (session_scope db body).closed = true := by
  refine ⟨?_, ?_, ?_⟩
  · intro s hs
    simp [session_scope, hs, SessionState.commit]
  · intro e s hs
    simp [session_scope, hs, SessionState.rollback]
  · rcases hb : body ⟨db, []⟩ with es | s <;> simp [session_scope, hb]

/-- Witness for C2: a committing body makes its change visible; a raising
body leaves the committed content untouched and re-raises; both close. -/
theorem session_scope_spec_witness :
    session_scope [1] (fun s => .ok ⟨s.committed, [2]⟩) =
      ⟨.ok (), ⟨[1, 2], []⟩, true⟩ ∧
    session_scope [1] (fun s => .error ("boom", ⟨s.committed, [7]⟩)) =
      ⟨.error "boom", ⟨[1], []⟩, true⟩ :=
  ⟨(session_scope_spec [1] (fun s => .ok ⟨s.committed, [2]⟩)).1 ⟨[1], [2]⟩ rfl,
    (session_scope_spec [1] (fun s => .error ("boom", ⟨s.committed, [7]⟩))).2.1
      "boom" ⟨[1], [7]⟩ rfl⟩

/-- C3: test_session_scope on a transactional backend leaves the database
content exactly as it was, whatever writes and commits the body performs and
whether or not it raises; the session and the connection are both closed, and
a body exception propagates unchanged. -/
theorem test_session_scope_spec {α : Type} (db : List α)
    (ops : List (SessionOp α)) (body_exc : Option Err) :
    (test_session_scope db ops body_exc).db = db ∧
    (test_session_scope db ops body_exc).session_closed = true ∧
    (test_session_scope db ops body_exc).connection_closed = true ∧
    (test_session_scope db ops body_exc).propagated = body_exc := by
  refine ⟨?_, rfl, rfl, rfl⟩
  simp [test_session_scope, run_preserves_db]

/-- C4: entering a UnitTestDB returns the instance itself; exiting calls
drop() unconditionally — also when the body raised — and drop() removes the
database and disposes the pool, so an existence check after drop() reports
the database absent. -/
theorem unitTestDB_context_manager (h : UnitTestDBHandle) (st : ServerState)
    (body_exc : Option Err) :
    unitTestDB_enter h = h ∧
    (unitTestDB_exit h body_exc st).1 = (h.drop st).1 ∧
    database_exists h.url_db (unitTestDB_exit h body_exc st).1 = false ∧
    (unitTestDB_exit h body_exc st).2.1.pool_disposed = true ∧
    (unitTestDB_exit h body_exc st).2.2 = body_exc ∧
    database_exists h.url_db (h.drop st).1 = false ∧
    (h.drop st).2.pool_disposed = true := by
  refine ⟨rfl, rfl, ?_, rfl, rfl, ?_, rfl⟩ <;>
    simp [unitTestDB_exit, UnitTestDBHandle.drop, database_exists_drop]

/-- C5: the test database is named by the OS username, an underscore and the
logical name — with a ".db" file suffix for the embedded SQLite engine — and
construction deletes any same-named existing database before creating the new
one, which starts out empty: a clean slate whatever the server held before. -/
theorem unitTestDB_naming_clean_slate (user logical dialect : String)
    (tmp_path : Option String) (st : ServerState) (u : String)
    (hd : ¬ dialect = "sqlite") :
    test_db_name user logical = user ++ "_" ++ logical ∧
    url_database_field dialect (test_db_name user logical) tmp_path =
      user ++ "_" ++ logical ∧
    url_database_field "sqlite" (test_db_name user logical) none =
      user ++ "_" ++ logical ++ ".db" ∧
    database_exists u
      (if database_exists u st then drop_database u st else st) = false ∧
    (create_clean_database u st).lookup u = some [] := by
  refine ⟨rfl, ?_, ?_, ?_, ?_⟩
  · simp [url_database_field, hd, test_db_name]
  · simp [url_database_field, test_db_name]
  · by_cases hex : database_exists u st
    · simp [hex, database_exists_drop]
    · simp [hex]
  · simp [create_clean_database, create_database, List.lookup]

/-- Witness for C5: on a MySQL server already holding `alice_core`, the new
database replaces it and starts empty. -/
theorem unitTestDB_naming_clean_slate_witness :
    ¬ ("mysql" : String) = "sqlite" ∧
    (test_db_name "alice" "core" = "alice" ++ "_" ++ "core" ∧
      url_database_field "mysql" (test_db_name "alice" "core") none =
        "alice" ++ "_" ++ "core" ∧
      url_database_field "sqlite" (test_db_name "alice" "core") none =
        "alice" ++ "_" ++ "core" ++ ".db" ∧
      database_exists "alice_core"
        (if database_exists "alice_core" [("alice_core", ["old"])] then
          drop_database "alice_core" [("alice_core", ["old"])]
        else [("alice_core", ["old"])]) = false ∧
      (create_clean_database "alice_core" [("alice_core", ["old"])]).lookup
        "alice_core" = some []) :=
  ⟨by decide,
    unitTestDB_naming_clean_slate "alice" "core" "mysql" none
      [("alice_core", ["old"])] "alice_core" (by decide)⟩

/-- C6: the schema loop executes exactly the chunks of the schema file's
content split on the ";" terminator whose stripped form is nonempty, one by
one in the order they appear in the file. -/
theorem execute_schema_file_eq (file_lines : List String) :
    execute_schema_file file_lines = schema_statements (String.join file_lines) := by
  simpa [execute_schema_file, schema_statements] using
    foldl_keep_eq_filter (fun query => !(query.trim == ""))
      ((String.join file_lines).splitOn ";") []

/-- C7: get_columns and get_primary_key_columns return the column names in
the order the backend's reflection reported, and both raise a KeyError
whenever the table is absent from the current snapshot. -/
theorem reflection_accessors_spec (c : DBConnectionModel) (table : String) :
    (∀ t, c.tables.lookup table = some t →
      c.get_columns table = .ok (t.columns.map ColumnMeta.name) ∧
      c.get_primary_key_columns table =
        .ok (t.primary_key_columns.map ColumnMeta.name)) ∧
    (c.tables.lookup table = none →
      c.get_columns table = .error ⟨table⟩ ∧
      c.get_primary_key_columns table = .error ⟨table⟩) := by
  constructor
  · intro t ht
    simp [DBConnectionModel.get_columns, DBConnectionModel.get_primary_key_columns, ht]
  · intro ht
    simp [DBConnectionModel.get_columns, DBConnectionModel.get_primary_key_columns, ht]

/-- Witness for C7: a concrete snapshot with a `gene` table yields its columns
in reflection order, and a missing `transcript` table raises KeyError. -/
theorem reflection_accessors_spec_witness :
    (⟨some [("gene", ⟨[⟨"gene_id"⟩, ⟨"biotype"⟩], [⟨"gene_id"⟩]⟩)]⟩ :
        DBConnectionModel).get_columns "gene" = .ok ["gene_id", "biotype"] ∧
    (⟨some [("gene", ⟨[⟨"gene_id"⟩, ⟨"biotype"⟩], [⟨"gene_id"⟩]⟩)]⟩ :
        DBConnectionModel).get_primary_key_columns "gene" = .ok ["gene_id"] ∧
    (⟨some [("gene", ⟨[⟨"gene_id"⟩, ⟨"biotype"⟩], [⟨"gene_id"⟩]⟩)]⟩ :
        DBConnectionModel).get_columns "transcript" = .error ⟨"transcript"⟩ :=
  ⟨((reflection_accessors_spec
      ⟨some [("gene", ⟨[⟨"gene_id"⟩, ⟨"biotype"⟩], [⟨"gene_id"⟩]⟩)]⟩ "gene").1
      ⟨[⟨"gene_id"⟩, ⟨"biotype"⟩], [⟨"gene_id"⟩]⟩ rfl).1,
    ((reflection_accessors_spec
      ⟨some [("gene", ⟨[⟨"gene_id"⟩, ⟨"biotype"⟩], [⟨"gene_id"⟩]⟩)]⟩ "gene").1
      ⟨[⟨"gene_id"⟩, ⟨"biotype"⟩], [⟨"gene_id"⟩]⟩ rfl).2,
    ((reflection_accessors_spec
      ⟨some [("gene", ⟨[⟨"gene_id"⟩, ⟨"biotype"⟩], [⟨"gene_id"⟩]⟩)]⟩
      "transcript").2 rfl).1⟩

/-- C8: for an argument registered via add_numeric_argument, a command-line
value that cannot be converted, or is lower than min_value, or greater than
max_value, ends parsing in a process-terminating ParserExit with a
descriptive message — not a recoverable ArgumentError — while in-range values
parse to their converted number. -/
theorem numeric_argument_parse_errors (value_type : String → Option Int)
    (typeName v : String) (p q : ParserSpec) (argName : String)
    (mn mx : Option Int)
    (hadd : add_numeric_argument p argName mn mx = (none, q)) :
    q.arguments = p.arguments ++ [⟨argName, mn, mx⟩] ∧
    (value_type v = none →
      parse_arg_value value_type typeName ⟨argName, mn, mx⟩ v =
        .error ⟨"invalid " ++ typeName ++ " value: " ++ v⟩) ∧
    (∀ r m, value_type v = some r → mn = some m → r < m →
      parse_arg_value value_type typeName ⟨argName, mn, mx⟩ v =
        .error ⟨v ++ " is lower than minimum value (" ++ toString m ++ ")"⟩) ∧
    (∀ r m, value_type v = some r → mx = some m → r > m →
      ∃ pe : ParserExit,
        parse_arg_value value_type typeName ⟨argName, mn, mx⟩ v = .error pe) ∧
    (∀ r, value_type v = some r → (∀ m, mn = some m → m ≤ r) →
      (∀ m, mx = some m → r ≤ m) →
      parse_arg_value value_type typeName ⟨argName, mn, mx⟩ v = .ok r) := by
  refine ⟨?_, ?_, ?_, ?_, ?_⟩
  · cases mn with
    | none =>
      simp [add_numeric_argument] at hadd
      simp [← hadd]
    | some a =>
      cases mx with
      | none =>
        simp [add_numeric_argument] at hadd
        simp [← hadd]
      | some b =>
        by_cases hab : a > b
        · simp [add_numeric_argument, hab] at hadd
        · simp [add_numeric_argument, hab] at hadd
          simp [← hadd]
  · intro hv
    simp [parse_arg_value, validate_number, hv]
  · intro r m hv hm hr
    subst hm
    cases mx <;> simp [parse_arg_value, validate_number, hv, hr]
  · intro r m hv hm hr
    subst hm
    cases mn with
    | none =>
      refine ⟨⟨v ++ " is greater than maximum value (" ++ toString m ++ ")"⟩, ?_⟩
      simp [parse_arg_value, validate_number, hv, hr]
    | some a =>
      by_cases hra : r < a
      · refine ⟨⟨v ++ " is lower than minimum value (" ++ toString a ++ ")"⟩, ?_⟩
        simp [parse_arg_value, validate_number, hv, hra]
      · refine ⟨⟨v ++ " is greater than maximum value (" ++ toString m ++ ")"⟩, ?_⟩
        simp [parse_arg_value, validate_number, hv, hra, hr]
  · intro r hv hmin hmax
    cases mn with
    | none =>
      cases mx with
      | none => simp [parse_arg_value, validate_number, hv]
      | some b =>
        simp [parse_arg_value, validate_number, hv, not_lt.mpr (hmax b rfl)]
    | some a =>
      cases mx with
      | none =>
        simp [parse_arg_value, validate_number, hv, not_lt.mpr (hmin a rfl)]
      | some b =>
        simp [parse_arg_value, validate_number, hv, not_lt.mpr (hmin a rfl),
          not_lt.mpr (hmax b rfl)]

/-- Witness for C8: with bounds 0 and 10 on an integer argument, "abc", "-5"
and "11" all end in a process-terminating parse error, and "7" parses. -/
theorem numeric_argument_parse_errors_witness :
    add_numeric_argument ⟨[]⟩ "--count" (some 0) (some 10) =
      (none, ⟨[⟨"--count", some 0, some 10⟩]⟩) ∧
    parse_arg_value
      (fun s => List.lookup s [("-5", (-5 : Int)), ("7", 7), ("11", 11)]) "int"
      ⟨"--count", some 0, some 10⟩ "abc" =
      .error ⟨"invalid int value: abc"⟩ ∧
    parse_arg_value
      (fun s => List.lookup s [("-5", (-5 : Int)), ("7", 7), ("11", 11)]) "int"
      ⟨"--count", some 0, some 10⟩ "-5" =
      .error ⟨"-5 is lower than minimum value (0)"⟩ ∧
    (∃ pe : ParserExit,
      parse_arg_value
        (fun s => List.lookup s [("-5", (-5 : Int)), ("7", 7), ("11", 11)]) "int"
        ⟨"--count", some 0, some 10⟩ "11" = .error pe) ∧
    parse_arg_value
      (fun s => List.lookup s [("-5", (-5 : Int)), ("7", 7), ("11", 11)]) "int"
      ⟨"--count", some 0, some 10⟩ "7" =
      .ok 7 :=
  ⟨rfl,
    (numeric_argument_parse_errors
      (fun s => List.lookup s [("-5", (-5 : Int)), ("7", 7), ("11", 11)]) "int"
      "abc" ⟨[]⟩ ⟨[⟨"--count", some 0, some 10⟩]⟩ "--count" (some 0) (some 10)
      rfl).2.1 (by decide),
    (numeric_argument_parse_errors
      (fun s => List.lookup s [("-5", (-5 : Int)), ("7", 7), ("11", 11)]) "int"
      "-5" ⟨[]⟩ ⟨[⟨"--count", some 0, some 10⟩]⟩ "--count" (some 0) (some 10)
      rfl).2.2.1 (-5) 0 (by decide) rfl (by decide),
    (numeric_argument_parse_errors
      (fun s => List.lookup s [("-5", (-5 : Int)), ("7", 7), ("11", 11)]) "int"
      "11" ⟨[]⟩ ⟨[⟨"--count", some 0, some 10⟩]⟩ "--count" (some 0) (some 10)
      rfl).2.2.2.1 11 10 (by decide) rfl (by decide),
    (numeric_argument_parse_errors
      (fun s => List.lookup s [("-5", (-5 : Int)), ("7", 7), ("11", 11)]) "int"
      "7" ⟨[]⟩ ⟨[⟨"--count", some 0, some 10⟩]⟩ "--count" (some 0) (some 10)
      rfl).2.2.2.2 7 (by decide) (by intro m hm; cases hm; decide)
      (by intro m hm; cases hm; decide)⟩

/-- C9: validate_file_hash returns true exactly when the provided value
equals get_file_hash; the round trip through get_file_hash always validates;
and get_file_hash depends only on the file's byte content. -/
theorem file_hash_round_trip (algos : HashRegistry) (fs fs2 : FileSystem)
    (p p2 h a : String) (hbytes : fs p = fs2 p2) :
    (validate_file_hash algos fs p h a = true ↔
      h = get_file_hash algos fs p a) ∧
    validate_file_hash algos fs p (get_file_hash algos fs p a) a = true ∧
    get_file_hash algos fs p a = get_file_hash algos fs2 p2 a := by
  refine ⟨⟨fun hv => (eq_of_beq hv).symm, fun hh => ?_⟩, ?_, ?_⟩
  · rw [hh]
    exact beq_self_eq_true (get_file_hash algos fs p a)
  · exact beq_self_eq_true (get_file_hash algos fs p a)
  · show algos a (fs p) = algos a (fs2 p2)
    rw [hbytes]

/-- Witness for C9: two paths with identical bytes hash alike, and the round
trip validates on a concrete file. -/
theorem file_hash_round_trip_witness :
    ((fun _ => [1, 2, 3]) : FileSystem) "a.txt" =
      ((fun _ => [1, 2, 3]) : FileSystem) "b.txt" ∧
    ((validate_file_hash (fun _ bs => toString bs.length) (fun _ => [1, 2, 3])
        "a.txt" "3" "md5" = true ↔
      "3" = get_file_hash (fun _ bs => toString bs.length) (fun _ => [1, 2, 3])
        "a.txt" "md5") ∧
    validate_file_hash (fun _ bs => toString bs.length) (fun _ => [1, 2, 3])
      "a.txt"
      (get_file_hash (fun _ bs => toString bs.length) (fun _ => [1, 2, 3])
        "a.txt" "md5") "md5" = true ∧
    get_file_hash (fun _ bs => toString bs.length) (fun _ => [1, 2, 3]) "a.txt"
      "md5" =
      get_file_hash (fun _ bs => toString bs.length) (fun _ => [1, 2, 3])
        "b.txt" "md5") :=
  ⟨rfl,
    file_hash_round_trip (fun _ bs => toString bs.length) (fun _ => [1, 2, 3])
      (fun _ => [1, 2, 3]) "a.txt" "b.txt" "3" "md5" rfl⟩

/-- C10: when both bounds are provided with min_value greater than max_value,
add_numeric_argument raises ArgumentError at argument-definition time and the
parser is left unchanged — no argument is added. -/
theorem add_numeric_argument_min_gt_max (p : ParserSpec) (argName : String)
    (a b : Int) (h : a > b) :
    add_numeric_argument p argName (some a) (some b) =
      (some ⟨"minimum value is greater than maximum value"⟩, p) := by
  simp [add_numeric_argument, h]

/-- Witness for C10: bounds 5 and 3 raise ArgumentError and add nothing. -/
theorem add_numeric_argument_min_gt_max_witness :
    (5 : Int) > 3 ∧
    add_numeric_argument ⟨[]⟩ "--count" (some 5) (some 3) =
      (some ⟨"minimum value is greater than maximum value"⟩, ⟨[]⟩) :=
  ⟨by decide, add_numeric_argument_min_gt_max ⟨[]⟩ "--count" 5 3 (by decide)⟩

end EnsemblUtils
